/-
Verification development for the qns BNS emulator.

Shallow embedding of the Python sources:
  * `qns/memory.py`        → `QNS.Memory`
  * `qns/io.py`            → `QNS.BrailleKeyboard`, `QNS.IOBus`
  * `qns/bns.py`           → `QNS.load_rom_data` (ROM shape decision)
  * `qns/synth/dsp.py`     → `QNS.time_stretch`
  * `qns/synth/ssi263_synth.py` → `QNS.SSI263State`, `QNS.SSI263Synth`
  * `qns/ssi263.py`        → `QNS.SSI263`

Python `int` values are modelled as `Nat` (or `Int` for signed samples),
with explicit masking (`&&& 0xFF`, `% 2^20`) exactly where the source
masks.  Side-effecting callbacks are modelled by recording their
invocations in explicit log fields.  `print` calls have no machine-state
effect and are not modelled.
-/
import Mathlib

namespace QNS

/-! ## Memory (qns/memory.py)

`Memory.__init__(ram_size=512*1024, rom_size=256*1024)`.  The `bytearray`
buffers are modelled as functions `Nat → Nat` together with their length;
the written-address `set` as a predicate `Nat → Bool`. -/

structure Memory where
  ram : Nat → Nat
  ram_size : Nat
  rom : Nat → Nat
  rom_size : Nat
  rom_loaded : Bool
  written : Nat → Bool
  cbr : Nat
  bbr : Nat
  cbar : Nat

/-- Constructor `Memory.__init__(ram_size, rom_size)`: zeroed buffers,
empty written set, `cbr=0x00`, `bbr=0x00`, `cbar=0xF0`. -/
def Memory.init (ram_size rom_size : Nat) : Memory :=
  { ram := fun _ => 0
    ram_size := ram_size
    rom := fun _ => 0
    rom_size := rom_size
    rom_loaded := false
    written := fun _ => false
    cbr := 0x00
    bbr := 0x00
    cbar := 0xF0 }

/-- The default construction `Memory()` used by `BNS.__init__`. -/
def Memory.initDefault : Memory := Memory.init (512 * 1024) (256 * 1024)

/-- `Memory.load_rom(data, offset)`: `self.rom[offset:offset+len(data)] = data`
(a `bytearray` slice assignment extends the buffer when it overruns the
end, hence the `max`), then `rom_loaded = True`. -/
def Memory.load_rom (m : Memory) (data : List Nat) (offset : Nat) : Memory :=
  { m with
    rom := fun a =>
      if offset ≤ a ∧ a < offset + data.length then data.getD (a - offset) 0
      else m.rom a
    rom_size := max m.rom_size (offset + data.length)
    rom_loaded := true }

/-- `Memory.read(addr)`: mask to 20 bits; written addresses return RAM
(shadow RAM), else ROM when inside the loaded ROM region, else RAM,
else `0xFF`. -/
def Memory.read (m : Memory) (addr : Nat) : Nat :=
  let a := addr &&& 0xFFFFF
  if a < m.ram_size ∧ m.written a = true then m.ram a
  else if a < m.rom_size ∧ m.rom_loaded = true then m.rom a
  else if a < m.ram_size then m.ram a
  else 0xFF

/-- `Memory.write(addr, value)`: mask to 20 bits; in-RAM writes store
`value & 0xFF` and insert the address into the written set; out-of-range
writes are dropped.  (The `VOLUME` debug `print` has no state effect.) -/
def Memory.write (m : Memory) (addr value : Nat) : Memory :=
  let a := addr &&& 0xFFFFF
  if a < m.ram_size then
    { m with
      ram := fun x => if x = a then value &&& 0xFF else m.ram x
      written := fun x => if x = a then true else m.written x }
  else m

/-- `Memory.set_mmu(cbr, bbr, cbar)`: field-selective update, each byte
masked to 8 bits. -/
def Memory.set_mmu (m : Memory) (cbr bbr cbar : Option Nat) : Memory :=
  let m := match cbr with
    | some v => { m with cbr := v &&& 0xFF }
    | none => m
  let m := match bbr with
    | some v => { m with bbr := v &&& 0xFF }
    | none => m
  match cbar with
  | some v => { m with cbar := v &&& 0xFF }
  | none => m

/-- One external operation on a `Memory` object. -/
inductive MemOp where
  | mread (addr : Nat)
  | mwrite (addr value : Nat)
  | mloadRom (data : List Nat) (offset : Nat)
  | msetMmu (cbr bbr cbar : Option Nat)

/-- State effect of one memory operation (`read` has none). -/
def Memory.step (m : Memory) : MemOp → Memory
  | .mread _ => m
  | .mwrite addr value => m.write addr value
  | .mloadRom data offset => m.load_rom data offset
  | .msetMmu cbr bbr cbar => m.set_mmu cbr bbr cbar

/-- Run a sequence of memory operations. -/
def Memory.runOps (m : Memory) (ops : List MemOp) : Memory :=
  ops.foldl Memory.step m

/-- Does this operation write to (20-bit) physical address `a`? -/
def MemOp.writesTo (a : Nat) : MemOp → Bool
  | .mwrite addr _ => addr &&& 0xFFFFF == a
  | _ => false

/-! ## Braille keyboard (qns/io.py, class BrailleKeyboard)

The class holds a port number and the current chord byte `dots`.
`press` is the only mutator of `dots` besides `release`.  The source
class has no IRQ-callback field and none of its methods invoke a
callback; to make that observable, every method that could conceivably
signal returns the list of IRQ-callback invocations it performs
(always `[]`, straight from the source). -/

structure BrailleKeyboard where
  port : Nat
  dots : Nat

/-- `BrailleKeyboard.__init__(port=0x40)`: `dots = 0x00`. -/
def BrailleKeyboard.init (port : Nat) : BrailleKeyboard :=
  { port := port, dots := 0x00 }

/-- `BrailleKeyboard.read(port)`: returns the current chord byte. -/
def BrailleKeyboard.readPort (k : BrailleKeyboard) (_port : Nat) : Nat :=
  k.dots

/-- `BrailleKeyboard.write(port, value)`: `pass` — no state change, no
callback invocation. -/
def BrailleKeyboard.writePort (k : BrailleKeyboard) (_port _value : Nat) :
    BrailleKeyboard × List Nat :=
  (k, [])

/-- `BrailleKeyboard.press(dots)`: `self.dots = dots & 0xFF`.  The second
component records IRQ-callback invocations performed by the method: the
source performs none. -/
def BrailleKeyboard.press (k : BrailleKeyboard) (dots : Nat) :
    BrailleKeyboard × List Nat :=
  ({ k with dots := dots &&& 0xFF }, [])

/-- `BrailleKeyboard.release()`: `self.dots = 0x00`. -/
def BrailleKeyboard.release (k : BrailleKeyboard) : BrailleKeyboard × List Nat :=
  ({ k with dots := 0x00 }, [])

/-! ## I/O bus (qns/io.py, class IOBus)

Read handlers are functions from (masked) port to value; write handlers
— whose effects live in the peripherals — are kept abstract in a type
parameter `W`, and dispatch returns the handler that the Python code
would invoke.  Handler arguments are Python functions, hence always
truthy: `if read_handler:` means `read_handler is not None`. -/

structure IOBus (W : Type) where
  read_handlers : Nat → Option (Nat → Nat)
  write_handlers : Nat → Option W
  iolog : List (Bool × Nat × Nat)
  logging : Bool

/-- `IOBus.__init__()`: empty handler tables, empty log, logging on. -/
def IOBus.init (W : Type) : IOBus W :=
  { read_handlers := fun _ => none
    write_handlers := fun _ => none
    iolog := []
    logging := true }

/-- `IOBus.register(port, read_handler=None, write_handler=None)`:
each table is updated only when the corresponding handler is provided. -/
def IOBus.register {W : Type} (bus : IOBus W) (port : Nat)
    (read_handler : Option (Nat → Nat)) (write_handler : Option W) : IOBus W :=
  let bus := match read_handler with
    | some h =>
      { bus with read_handlers := fun p => if p = port then some h else bus.read_handlers p }
    | none => bus
  match write_handler with
  | some h =>
    { bus with write_handlers := fun p => if p = port then some h else bus.write_handlers p }
  | none => bus

/-- `IOBus.read(port)`: mask the port to 8 bits, dispatch to the read
handler (default `0xFF`), append a trace entry when logging.  Returns
the updated bus and the value read. -/
def IOBus.readPort {W : Type} (bus : IOBus W) (port : Nat) : IOBus W × Nat :=
  let p := port &&& 0xFF
  let value := match bus.read_handlers p with
    | some h => h p
    | none => 0xFF
  let bus := if bus.logging then { bus with iolog := (true, p, value) :: bus.iolog } else bus
  (bus, value)

/-- `IOBus.write(port, value)`: mask port and value, log, and dispatch.
The second component is the write handler the source would invoke
(`none` when the port is unbound and the write is dropped). -/
def IOBus.writePort {W : Type} (bus : IOBus W) (port value : Nat) :
    IOBus W × Option W :=
  let p := port &&& 0xFF
  let v := value &&& 0xFF
  let bus := if bus.logging then { bus with iolog := (false, p, v) :: bus.iolog } else bus
  (bus, bus.write_handlers p)

/-! ## ROM shape decision (qns/bns.py, BNS.load_rom)

`BNS.load_rom` reads the file, decides its shape, and passes the
resulting byte string to `Memory.load_rom` at offset 0.  The function
below computes exactly the bytes that reach `Memory.load_rom`.
`suffix_is_bin` stands for `path.suffix.lower() == '.bin'`. -/

/-- Bytes that `BNS.load_rom` loads at physical 0, from the source. -/
def load_rom_data (suffix_is_bin : Bool) (data : List Nat) : List Nat :=
  if suffix_is_bin = true ∧ (data.length = 0x10000 ∨ data.length = 0x40000) then
    data
  else
    -- update-package check: `len(data) >= 5 and data[2:5] == b'BNS'`
    let data :=
      if 5 ≤ data.length ∧ (data.drop 2).take 3 = [0x42, 0x4E, 0x53] then
        if 0x3000 < data.length then data.drop 0x3000 else data
      else data
    -- `if len(data) > 256 * 1024: data = data[:256 * 1024]`; 256 * 1024 = 262144
    if 262144 < data.length then data.take 262144 else data

/-- Modelled from the claim's wording, for comparison with
`load_rom_data`: `.bin` of size exactly 65536 or 262144 loads verbatim;
otherwise a file with ASCII `BNS` at bytes 2..4 has its first `0x3000`
bytes skipped (falling back to raw if not larger than `0x3000`);
otherwise the file loads as-is; every non-`.bin` outcome is truncated
to 262144 bytes. -/
def load_rom_claim (suffix_is_bin : Bool) (data : List Nat) : List Nat :=
  if suffix_is_bin = true ∧ (data.length = 65536 ∨ data.length = 262144) then
    data
  else if 5 ≤ data.length ∧ (data.drop 2).take 3 = [0x42, 0x4E, 0x53] ∧
      0x3000 < data.length then
    (data.drop 0x3000).take 262144
  else
    data.take 262144

/-! ## Synth register state (qns/synth/ssi263_synth.py)

`SSI263State` mirrors the dataclass.  `SSI263Synth` keeps the pieces of
the Python object that register writes can touch: the decoded state, the
audio flags, and a log of the parameter tuples passed to
`get_phoneme_audio`/`play` by `_play_current_phoneme` (newest first). -/

structure SSI263State where
  phoneme : Nat
  duration : Nat
  inflection : Nat
  rate : Nat
  articulation : Nat
  amplitude : Nat
  filter_freq : Nat
  control : Bool

/-- Dataclass defaults of `SSI263State`. -/
def SSI263State.init : SSI263State :=
  { phoneme := 0
    duration := 0
    inflection := 2048
    rate := 8
    articulation := 0
    amplitude := 15
    filter_freq := 0
    control := true }

/-- Register values handed to `get_phoneme_audio` by
`_play_current_phoneme` for one rendered phoneme. -/
structure PlayedEntry where
  phoneme : Nat
  amplitude : Nat
  inflection : Nat
  rate : Nat
  duration : Nat
  filter_freq : Nat

structure SSI263Synth where
  sample_rate : Nat
  audio_enabled : Bool
  state : SSI263State
  player : Bool
  played : List PlayedEntry

/-- `SSI263Synth.__init__(sample_rate=22050, audio_enabled=True)`:
a player exists exactly when audio is enabled. -/
def SSI263Synth.init (sample_rate : Nat) (audio_enabled : Bool) : SSI263Synth :=
  { sample_rate := sample_rate
    audio_enabled := audio_enabled
    state := SSI263State.init
    player := audio_enabled
    played := [] }

/-- `SSI263Synth._play_current_phoneme()`: read the phoneme, force a
zero amplitude to 15 (the source's `VOLUME` workaround), then — when
audio is enabled and a player exists — generate audio from the current
register state and enqueue it.  (`print` and the phoneme callback have
no state effect.) -/
def SSI263Synth.play_current_phoneme (s : SSI263Synth) : SSI263Synth :=
  let phoneme := s.state.phoneme
  let s := if s.state.amplitude = 0 then
      { s with state := { s.state with amplitude := 15 } }
    else s
  if s.audio_enabled = true ∧ s.player = true then
    { s with played :=
        { phoneme := phoneme
          amplitude := s.state.amplitude
          inflection := s.state.inflection
          rate := s.state.rate
          duration := s.state.duration
          filter_freq := s.state.filter_freq } :: s.played }
  else s

/-- `SSI263Synth.write_durphon(value)`: bits 7:6 duration, 5:0 phoneme;
plays when not in standby. -/
def SSI263Synth.write_durphon (s : SSI263Synth) (value : Nat) : SSI263Synth :=
  let s := { s with state := { s.state with
    duration := (value >>> 6) &&& 0x03
    phoneme := value &&& 0x3F } }
  if s.state.control = false then s.play_current_phoneme else s

/-- `SSI263Synth.write_inflect(value)`:
`self.state.inflection = (self.state.inflection & 0x007) | (value << 3)`. -/
def SSI263Synth.write_inflect (s : SSI263Synth) (value : Nat) : SSI263Synth :=
  { s with state := { s.state with
    inflection := (s.state.inflection &&& 0x007) ||| (value <<< 3) } }

/-- `SSI263Synth.write_rateinf(value)`: bits 7:4 rate, bit 3 = I11,
bits 2:0 = I2:I0;
`self.state.inflection = (i11 << 11) | (self.state.inflection & 0x7F8) | i2_0`. -/
def SSI263Synth.write_rateinf (s : SSI263Synth) (value : Nat) : SSI263Synth :=
  let i11 := (value >>> 3) &&& 0x01
  let i2_0 := value &&& 0x07
  { s with state := { s.state with
    rate := (value >>> 4) &&& 0x0F
    inflection := (i11 <<< 11) ||| (s.state.inflection &&& 0x7F8) ||| i2_0 } }

/-- `SSI263Synth.write_ctrlamp(value)`: bit 7 CTL, 6:4 articulation,
3:0 amplitude; a 1→0 CTL transition plays the current phoneme. -/
def SSI263Synth.write_ctrlamp (s : SSI263Synth) (value : Nat) : SSI263Synth :=
  let old_control := s.state.control
  let s := { s with state := { s.state with
    control := value &&& 0x80 ≠ 0
    articulation := (value >>> 4) &&& 0x07
    amplitude := value &&& 0x0F } }
  if old_control = true ∧ s.state.control = false then s.play_current_phoneme else s

/-- `SSI263Synth.write_filter(value)`. -/
def SSI263Synth.write_filter (s : SSI263Synth) (value : Nat) : SSI263Synth :=
  { s with state := { s.state with filter_freq := value } }

/-! ## DSP time stretch (qns/synth/dsp.py)

Samples are `int16`; we model them as `Int` with an explicit wrap at the
`astype(np.int16)` cast.  numpy's integer `//` is *floor* division,
which on `Int` is `Int.fdiv`. -/

/-- The `astype(np.int16)` cast: wrap into `[-32768, 32767]`. -/
def toInt16 (x : Int) : Int := (x + 32768) % 65536 - 32768

/-- Sum of the `avg_count` consecutive input samples feeding output
sample `j` (the strided-slice accumulation loop of the source). -/
def groupSum (samples : List Int) (avg_count j : Nat) : Int :=
  (List.range avg_count).foldl (fun acc i => acc + samples.getD (j * avg_count + i) 0) 0

/-- `time_stretch(samples, rate, duration)` from the source: duration
modes 0/1 copy the input; modes 2/3 emit
`len // avg_count` samples, each the *floor* of the mean of its group
(numpy `//`), cast back to `int16`. -/
def time_stretch (samples : List Int) (rate duration : Nat) : List Int :=
  if duration = 0 ∨ duration = 1 then samples
  else
    let avg_count := if duration = 2 then 2 else 4
    let out_len := samples.length / avg_count
    if out_len = 0 then samples
    else (List.range out_len).map fun j =>
      toInt16 (Int.fdiv (groupSum samples avg_count j) avg_count)

/-! ## SSI-263 chip (qns/ssi263.py)

The chip object: five register bytes, derived state, cycle bookkeeping,
the optional synth binding, and the callback slots.  `_irq_callback`
holds a Python function or `None`; we track whether it is set
(`callback_set`) and record every invocation value in `irq_log`
(newest first).  The `_on_phoneme` callback and `print` calls have no
machine-state effect. -/

structure SSI263 where
  base_port : Nat
  clock : Nat
  phoneme_log : List Nat
  duration_phoneme : Nat
  inflection : Nat
  rate_inflection : Nat
  ctrl_art_amp : Nat
  filter_freq : Nat
  speaking : Bool
  irq_enabled : Bool
  current_phoneme : Nat
  pending_irq_cycle : Option Nat
  current_cycle : Nat
  callback_set : Bool
  irq_log : List Nat
  synth : Option SSI263Synth

/-- `SSI263.__init__(base_port=0xC0, clock=12_288_000)`. -/
def SSI263.init (base_port clock : Nat) : SSI263 :=
  { base_port := base_port
    clock := clock
    phoneme_log := []
    duration_phoneme := 0xC0
    inflection := 0
    rate_inflection := 0
    ctrl_art_amp := 0x80
    filter_freq := 0xFF
    speaking := false
    irq_enabled := false
    current_phoneme := 0
    pending_irq_cycle := none
    current_cycle := 0
    callback_set := false
    irq_log := []
    synth := none }

/-- `SSI263.set_synth(synth)`. -/
def SSI263.set_synth (s : SSI263) (sy : SSI263Synth) : SSI263 :=
  { s with synth := some sy }

/-- `SSI263.set_irq_callback(callback)`: a (non-`None`) callback is now
bound. -/
def SSI263.set_irq_callback (s : SSI263) : SSI263 :=
  { s with callback_set := true }

/-- `SSI263.set_cycle_count(cycles)`. -/
def SSI263.set_cycle_count (s : SSI263) (cycles : Nat) : SSI263 :=
  { s with current_cycle := cycles }

/-- The `if self._synth: self._synth.f(value)` forwarding pattern. -/
def SSI263.forward (s : SSI263) (f : SSI263Synth → SSI263Synth) : SSI263 :=
  match s.synth with
  | some sy => { s with synth := some (f sy) }
  | none => s

/-- `SSI263._calc_phoneme_duration_cycles`, the `duration_ms`
intermediate:
`(((16 - rate) * 4096) // 1023) * (4 - dur_mode)`. -/
def SSI263.calc_phoneme_duration_ms (s : SSI263) : Nat :=
  let rate := (s.rate_inflection >>> 4) &&& 0x0F
  let dur_mode := (s.duration_phoneme >>> 6) &&& 0x03
  (((16 - rate) * 4096) / 1023) * (4 - dur_mode)

/-- `SSI263._calc_phoneme_duration_cycles`:
`(duration_ms * self._clock) // 1000`. -/
def SSI263.calc_phoneme_duration_cycles (s : SSI263) : Nat :=
  (s.calc_phoneme_duration_ms * s.clock) / 1000

/-- `SSI263.check_pending_irq(current_cycle)`: when a pending cycle is
set and reached, clear it, stop speaking, and assert INT1 through the
callback (when bound). -/
def SSI263.check_pending_irq (s : SSI263) (current_cycle : Nat) : SSI263 :=
  match s.pending_irq_cycle with
  | some pc =>
    if pc ≤ current_cycle then
      let s := { s with pending_irq_cycle := none, speaking := false }
      if s.callback_set = true then { s with irq_log := 1 :: s.irq_log } else s
    else s
  | none => s

/-- `SSI263.read(port)`: register 4 is the A/R status
(`0x00 if not self.speaking else 0x80`); everything else reads `0xFF`.
`reg = port - self.base_port` is Python `int` subtraction, hence `Int`. -/
def SSI263.read (s : SSI263) (port : Nat) : Nat :=
  let reg : Int := (port : Int) - (s.base_port : Int)
  if reg = 4 then
    if s.speaking = false then 0x00 else 0x80
  else 0xFF

/-- `SSI263._speak_phoneme(phoneme)`: log the phoneme, mark speaking,
and — when IRQ is enabled and a callback is bound — schedule INT1 at
`current_cycle + duration_cycles`. -/
def SSI263.speak_phoneme (s : SSI263) (phoneme : Nat) : SSI263 :=
  let s := { s with
    current_phoneme := phoneme
    phoneme_log := s.phoneme_log ++ [phoneme] }
  let duration_cycles := s.calc_phoneme_duration_cycles
  let s := { s with speaking := true }
  if s.irq_enabled = true ∧ s.callback_set = true then
    { s with pending_irq_cycle := some (s.current_cycle + duration_cycles) }
  else s

/-- `SSI263.write(port, value)`, with `reg = port - self.base_port`. -/
def SSI263.write (s : SSI263) (port value : Nat) : SSI263 :=
  let reg : Int := (port : Int) - (s.base_port : Int)
  if reg = 0 then
    -- REG_DURPHON
    let s := { s with
      duration_phoneme := value
      irq_enabled := value &&& 0xC0 ≠ 0 }
    let s := s.forward (fun sy => sy.write_durphon value)
    if s.ctrl_art_amp &&& 0x80 = 0 then s.speak_phoneme (value &&& 0x3F) else s
  else if reg = 1 then
    -- REG_INFLECT
    let s := { s with inflection := value }
    s.forward (fun sy => sy.write_inflect value)
  else if reg = 2 then
    -- REG_RATEINF
    let s := { s with rate_inflection := value }
    s.forward (fun sy => sy.write_rateinf value)
  else if reg = 3 then
    -- REG_CTRLAMP
    let old_ctl := s.ctrl_art_amp &&& 0x80
    let s := { s with ctrl_art_amp := value }
    let new_ctl := value &&& 0x80
    let s := s.forward (fun sy => sy.write_ctrlamp value)
    if old_ctl ≠ 0 ∧ new_ctl = 0 then
      s.speak_phoneme (s.duration_phoneme &&& 0x3F)
    else if old_ctl = 0 ∧ new_ctl ≠ 0 then
      { s with speaking := false }
    else s
  else if reg = 4 then
    -- REG_FILTER
    let s := { s with filter_freq := value }
    s.forward (fun sy => sy.write_filter value)
  else s

/-- One external operation on the chip object. -/
inductive SSIOp where
  | regWrite (port value : Nat)
  | regRead (port : Nat)
  | setCycleCount (cycles : Nat)
  | checkIrq (cycles : Nat)
  | setIrqCallback
  | setSynth (sy : SSI263Synth)

/-- State effect of one chip operation (`read` has none). -/
def SSI263.step (s : SSI263) : SSIOp → SSI263
  | .regWrite port value => s.write port value
  | .regRead _ => s
  | .setCycleCount n => s.set_cycle_count n
  | .checkIrq n => s.check_pending_irq n
  | .setIrqCallback => s.set_irq_callback
  | .setSynth sy => s.set_synth sy

/-- Run a sequence of chip operations. -/
def SSI263.runOps (s : SSI263) (ops : List SSIOp) : SSI263 :=
  ops.foldl SSI263.step s

/-! ## Shared helper lemmas -/

/-- A memory operation that does not write to `a` leaves the RAM cell,
the written-set membership and the RAM size at `a` unchanged. -/
lemma memStep_preserves {a : Nat} (m : Memory) (op : MemOp)
    (hop : op.writesTo a = false) :
    (m.step op).ram a = m.ram a ∧ (m.step op).written a = m.written a ∧
      (m.step op).ram_size = m.ram_size := by
  cases op with
  | mread addr => exact ⟨rfl, rfl, rfl⟩
  | mwrite addr value =>
    have hne : ¬ (a = addr &&& 0xFFFFF) := by
      intro h
      simp [MemOp.writesTo, h.symm] at hop
    simp only [Memory.step, Memory.write]
    split
    · exact ⟨by simp [hne], by simp [hne], rfl⟩
    · exact ⟨rfl, rfl, rfl⟩
  | mloadRom data offset => exact ⟨rfl, rfl, rfl⟩
  | msetMmu cbr bbr cbar =>
    cases cbr <;> cases bbr <;> cases cbar <;> exact ⟨rfl, rfl, rfl⟩

/-- Iterated version of `memStep_preserves`. -/
lemma memRunOps_preserves {a : Nat} (m : Memory) (ops : List MemOp)
    (hops : ∀ op ∈ ops, op.writesTo a = false) :
    (m.runOps ops).ram a = m.ram a ∧ (m.runOps ops).written a = m.written a ∧
      (m.runOps ops).ram_size = m.ram_size := by
  induction ops generalizing m with
  | nil => exact ⟨rfl, rfl, rfl⟩
  | cons op rest ih =>
    have h1 := memStep_preserves m op (hops op (by simp))
    have h2 := ih (m.step op) (fun o ho => hops o (by simp [ho]))
    exact ⟨h2.1.trans h1.1, h2.2.1.trans h1.2.1, h2.2.2.trans h1.2.2⟩

/-! ## Claim C2 -/

/-- Claim C2, counterexample: the default `Memory()` has 512 KiB of RAM,
so the 20-bit physical address `0x80000 = 524288` is out of range: the
write is dropped and the read returns `0xFF = 255`, not the written
value `18`. -/
theorem claim_C2_counterexample :
    (Memory.initDefault.write 0x80000 18).read 0x80000 = 0xFF ∧ (18 : Nat) ≠ 0xFF := by
  constructor
  · decide
  · decide

/-- Claim C2 (amended): read-after-write returns the last written byte,
for every 20-bit physical address *below the RAM size* (the claim's
"every address in the 20-bit physical space" fails at `0x80000` and
above for the default 512 KiB RAM).  After `write(a, v)` and any
further operations that do not write to `a` — reads, writes elsewhere,
`load_rom`, `set_mmu` — `read(a)` returns `v`, whether or not ROM was
loaded covering `a`. -/
theorem claim_C2_amended (m : Memory) (a v : Nat) (ops : List MemOp)
    (ha20 : a < 2 ^ 20) (haram : a < m.ram_size) (hv : v < 256)
    (hops : ∀ op ∈ ops, op.writesTo a = false) :
    ((m.write a v).runOps ops).read a = v := by
  have hmod : a &&& 0xFFFFF = a := by
    have := Nat.and_pow_two_sub_one_of_lt_two_pow (n := 20) ha20
    norm_num at this
    exact this
  have hv8 : v &&& 0xFF = v := by
    have := Nat.and_pow_two_sub_one_eq_mod v 8
    norm_num at this
    rw [this]
    exact Nat.mod_eq_of_lt hv
  have base : (m.write a v).ram a = v ∧ (m.write a v).written a = true ∧
      (m.write a v).ram_size = m.ram_size := by
    simp only [Memory.write, hmod]
    rw [if_pos haram]
    exact ⟨by simp [hv8], by simp, rfl⟩
  have run := memRunOps_preserves (m.write a v) ops hops
  have hram : ((m.write a v).runOps ops).ram a = v := run.1.trans base.1
  have hwr : ((m.write a v).runOps ops).written a = true := run.2.1.trans base.2.1
  have hsz : ((m.write a v).runOps ops).ram_size = m.ram_size := run.2.2.trans base.2.2
  simp only [Memory.read, hmod]
  rw [if_pos ⟨by rw [hsz]; exact haram, hwr⟩]
  exact hram

/-- Claim C2 amended, witness: write `0x55` at `0x100`, then read
elsewhere, load a ROM over it, write elsewhere, and change the MMU — the
read still returns `0x55`. -/
theorem claim_C2_amended_witness :
    ((Memory.initDefault.write 0x100 0x55).runOps
      [.mread 0x100, .mloadRom [1, 2, 3] 0, .mwrite 0x200 0x33,
       .msetMmu (some 1) none none]).read 0x100 = 0x55 :=
  claim_C2_amended Memory.initDefault 0x100 0x55 _
    (by decide) (by decide) (by decide) (by decide)

/-! ## Claim C6 -/

/-- Claim C6: a key press while no keys are down (`dots` goes `0x00` to
`0x01`) performs *no* IRQ-callback invocation — the `BrailleKeyboard`
class of `qns/io.py` has no IRQ-callback mechanism at all, although
`BNS.__init__` calls `keyboard.set_irq_callback(...)` (and constructs
the class with a `keyclr_port` argument it does not accept).  Writes do
leave the chord byte unchanged. -/
theorem claim_C6_code_evaluation :
    ((BrailleKeyboard.init 0x40).dots = 0) ∧
    (((BrailleKeyboard.init 0x40).press 0x01).1.dots = 0x01) ∧
    (((BrailleKeyboard.init 0x40).press 0x01).2 = []) ∧
    (((BrailleKeyboard.init 0x40).writePort 0x40 0xFF).1 = BrailleKeyboard.init 0x40) := by
  exact ⟨rfl, by decide, rfl, rfl⟩

/-! ## Claim C7 -/

/-- Truncating to `n` is the identity when the list is not longer. -/
lemma trunc_eq_take {α : Type} (l : List α) (n : Nat) :
    (if n < l.length then l.take n else l) = l.take n := by
  split
  · rfl
  · exact (List.take_of_length_le (by omega)).symm

/-- Claim C7: `BNS.load_rom` decides the on-disk shape exactly as the
claim describes — `.bin` of size 65536 or 262144 loads verbatim;
otherwise `BNS` magic at bytes 2..4 skips `0x3000` bytes (falling back
to raw when the file is not larger than `0x3000`); otherwise raw; with
non-`.bin` outcomes truncated to 262144 bytes before loading at
physical 0. -/
theorem claim_C7 (suffix_is_bin : Bool) (data : List Nat) :
    load_rom_data suffix_is_bin data = load_rom_claim suffix_is_bin data := by
  unfold load_rom_data load_rom_claim
  by_cases h1 : suffix_is_bin = true ∧ (data.length = 0x10000 ∨ data.length = 0x40000)
  · rw [if_pos h1, if_pos h1]
  · rw [if_neg h1, if_neg h1]
    by_cases h2 : 5 ≤ data.length ∧ (data.drop 2).take 3 = [0x42, 0x4E, 0x53]
    · rw [if_pos h2]
      by_cases h3 : 0x3000 < data.length
      · rw [if_pos h3,
          if_pos (show 5 ≤ data.length ∧ (data.drop 2).take 3 = [0x42, 0x4E, 0x53] ∧
            0x3000 < data.length from ⟨h2.1, h2.2, h3⟩)]
        exact trunc_eq_take _ _
      · rw [if_neg h3,
          if_neg (show ¬ (5 ≤ data.length ∧ (data.drop 2).take 3 = [0x42, 0x4E, 0x53] ∧
            0x3000 < data.length) from fun hc => h3 hc.2.2)]
        exact trunc_eq_take _ _
    · rw [if_neg h2,
        if_neg (show ¬ (5 ≤ data.length ∧ (data.drop 2).take 3 = [0x42, 0x4E, 0x53] ∧
          0x3000 < data.length) from fun hc => h2 ⟨hc.1, hc.2.1⟩)]
      exact trunc_eq_take _ _

/-! ## Claim C4 -/

/-- Claim C4, counterexample: from the synth's initial state the
inflection field is 2048, whose bit I11 is set.  Writing byte 0 to the
INFLECT register yields inflection 0: bit I11 did *not* keep its
previous value — `write_inflect` masks the old field with `0x007`,
clearing I11. -/
theorem claim_C4_counterexample :
    (SSI263Synth.init 22050 false).state.inflection = 2048 ∧
    (SSI263Synth.init 22050 false).state.inflection.testBit 11 = true ∧
    ((SSI263Synth.init 22050 false).write_inflect 0).state.inflection = 0 ∧
    ((SSI263Synth.init 22050 false).write_inflect 0).state.inflection.testBit 11 = false := by
  refine ⟨rfl, by decide, by decide, by decide⟩

/-- Claim C4 (amended): writing byte `b` to the synth's INFLECT register
sets bits I10:I3 of the 12-bit inflection field to `b` and keeps bits
I2:I0, but *clears* bit I11 (the claim said I11 keeps its previous
value); rate, amplitude and the other decoded registers are unchanged. -/
theorem claim_C4_amended (s : SSI263Synth) (b : Nat) (hb : b < 256) :
    ((s.write_inflect b).state.inflection.testBit 11 = false) ∧
    (∀ k, 3 ≤ k → k ≤ 10 →
      (s.write_inflect b).state.inflection.testBit k = b.testBit (k - 3)) ∧
    (∀ k, k < 3 →
      (s.write_inflect b).state.inflection.testBit k = s.state.inflection.testBit k) ∧
    (s.write_inflect b).state.rate = s.state.rate ∧
    (s.write_inflect b).state.amplitude = s.state.amplitude ∧
    (s.write_inflect b).state.phoneme = s.state.phoneme ∧
    (s.write_inflect b).state.duration = s.state.duration ∧
    (s.write_inflect b).state.articulation = s.state.articulation ∧
    (s.write_inflect b).state.filter_freq = s.state.filter_freq ∧
    (s.write_inflect b).state.control = s.state.control := by
  refine ⟨?_, ?_, ?_, rfl, rfl, rfl, rfl, rfl, rfl, rfl⟩
  · have hb8 : b.testBit 8 = false := Nat.testBit_lt_two_pow (by omega)
    have h7 : Nat.testBit 7 11 = false := by decide
    simp [SSI263Synth.write_inflect, Nat.testBit_or, Nat.testBit_and,
      Nat.testBit_shiftLeft, hb8, h7]
  · intro k h3 h10
    have h7 : Nat.testBit 7 k = false :=
      Nat.testBit_lt_two_pow (lt_of_lt_of_le (by norm_num)
        (Nat.pow_le_pow_right (by norm_num) h3))
    simp [SSI263Synth.write_inflect, Nat.testBit_or, Nat.testBit_and,
      Nat.testBit_shiftLeft, h7, h3]
  · intro k hk
    have h7 : Nat.testBit 7 k = true := by interval_cases k <;> decide
    have hk3 : ¬ (3 ≤ k) := by omega
    simp [SSI263Synth.write_inflect, Nat.testBit_or, Nat.testBit_and,
      Nat.testBit_shiftLeft, h7, hk3]

/-- Claim C4 amended, witness at the initial synth state with `b = 0xAB`. -/
theorem claim_C4_amended_witness :
    ((SSI263Synth.init 22050 false).write_inflect 0xAB).state.inflection.testBit 11 = false :=
  (claim_C4_amended (SSI263Synth.init 22050 false) 0xAB (by decide)).1

/-! ## Claim C9 -/

/-- Claim C9: when `_play_current_phoneme` runs with a decoded amplitude
of 0, the stored amplitude register is overwritten to 15 before audio
generation, and every audio block generated by the call carries a
non-zero amplitude — a phoneme is never rendered at amplitude 0 via
this path. -/
theorem claim_C9 (s : SSI263Synth) (h : s.state.amplitude = 0) :
    s.play_current_phoneme.state.amplitude = 15 ∧
    (∀ e ∈ s.play_current_phoneme.played, e ∈ s.played ∨ e.amplitude = 15) := by
  unfold SSI263Synth.play_current_phoneme
  rw [if_pos h]
  dsimp only
  by_cases hap : s.audio_enabled = true ∧ s.player = true
  · rw [if_pos hap]
    refine ⟨rfl, ?_⟩
    intro e he
    rcases List.mem_cons.mp he with h1 | h1
    · right
      rw [h1]
    · left
      exact h1
  · rw [if_neg hap]
    exact ⟨rfl, fun e he => Or.inl he⟩

/-- Claim C9, witness: a synth whose decoded amplitude is 0 has it
forced to 15 by `_play_current_phoneme`. -/
theorem claim_C9_witness :
    ({ SSI263Synth.init 22050 true with
        state := { SSI263State.init with amplitude := 0 } } : SSI263Synth).play_current_phoneme.state.amplitude = 15 :=
  (claim_C9 _ rfl).1

/-! ## Claim C10 -/

/-- Claim C10: `IOBus.register` replaces only the handlers actually
provided: registering with `read_handler = None` leaves the previously
registered read handler bound (a later `read` dispatches to it, not to
the `0xFF` default), and registering with `write_handler = None` leaves
the previous write handler bound (a later `write` dispatches to it). -/
theorem claim_C10 {W : Type} (bus : IOBus W) (p v : Nat) (hp : p < 256)
    (h : Nat → Nat) (w : W) (r2 : Option (Nat → Nat)) (w2 : Option W) :
    ((((bus.register p (some h) (some w)).register p none w2).readPort p).2 = h p) ∧
    ((((bus.register p (some h) (some w)).register p r2 none).writePort p v).2 = some w) := by
  have hmask : p &&& 0xFF = p := by
    have := Nat.and_pow_two_sub_one_of_lt_two_pow (n := 8) hp
    norm_num at this
    exact this
  constructor
  · cases w2 <;>
      simp [IOBus.register, IOBus.readPort, hmask]
  · cases r2 <;>
      simp [IOBus.register, IOBus.writePort, hmask] <;>
      (try split) <;> simp

/-- Claim C10, witness: port 5 keeps its read handler (returning 7)
through a later `register(5, None, some 43)`. -/
theorem claim_C10_witness :
    ((((IOBus.init Nat).register 5 (some fun _ => 7) (some 42)).register 5 none (some 43)).readPort 5).2 = 7 :=
  (claim_C10 (IOBus.init Nat) 5 0 (by decide) (fun _ => 7) 42 none (some 43)).1

/-! ## Claim C8 -/

/-- The `int16` cast is the identity on values already in range. -/
lemma toInt16_eq_self (z : Int) (h1 : -32768 ≤ z) (h2 : z ≤ 32767) :
    toInt16 z = z := by
  unfold toInt16
  rw [Int.emod_eq_of_lt (by omega) (by omega)]
  omega

/-- `groupSum` at `avg_count = 2`, unfolded. -/
lemma groupSum_two (x : List Int) (j : Nat) :
    groupSum x 2 j = x.getD (j * 2) 0 + x.getD (j * 2 + 1) 0 := by
  simp [groupSum, List.range_succ]

/-- `groupSum` at `avg_count = 4`, unfolded. -/
lemma groupSum_four (x : List Int) (j : Nat) :
    groupSum x 4 j = x.getD (j * 4) 0 + x.getD (j * 4 + 1) 0 +
      x.getD (j * 4 + 2) 0 + x.getD (j * 4 + 3) 0 := by
  simp [groupSum, List.range_succ]

/-- Every `getD`-read of an `int16` sample list is in `int16` range
(the default 0 included). -/
lemma list_getD_bounds (x : List Int)
    (hx : ∀ v ∈ x, -32768 ≤ v ∧ v ≤ 32767) (i : Nat) :
    -32768 ≤ x.getD i 0 ∧ x.getD i 0 ≤ 32767 := by
  by_cases h : i < x.length
  · rw [List.getD_eq_getElem?_getD, List.getElem?_eq_getElem h]
    exact hx _ (List.getElem_mem h)
  · rw [List.getD_eq_getElem?_getD, List.getElem?_eq_none (by omega)]
    norm_num

/-- `time_stretch` at duration mode 2 in closed form. -/
lemma time_stretch_two (x : List Int) (r : Nat) (h2 : 2 ≤ x.length) :
    time_stretch x r 2 = (List.range (x.length / 2)).map
      (fun j => toInt16 (Int.fdiv (groupSum x 2 j) 2)) := by
  unfold time_stretch
  rw [if_neg (by norm_num)]
  norm_num
  intro h
  exact absurd h (by omega)

/-- `time_stretch` at duration mode 3 in closed form. -/
lemma time_stretch_four (x : List Int) (r : Nat) (h4 : 4 ≤ x.length) :
    time_stretch x r 3 = (List.range (x.length / 4)).map
      (fun j => toInt16 (Int.fdiv (groupSum x 4 j) 4)) := by
  unfold time_stretch
  rw [if_neg (by norm_num)]
  norm_num
  intro h
  exact absurd h (by omega)

/-- Claim C8, counterexample: input `[-1, 0]` with duration mode 2.
The group sums to `-1`; the integer mean rounded toward zero is `0`,
but the code (numpy floor division) outputs `-1`. -/
theorem claim_C8_counterexample :
    time_stretch [-1, 0] 0 2 = [-1] ∧
    Int.tdiv (groupSum [-1, 0] 2 0) 2 = 0 ∧ ((-1 : Int) ≠ 0) := by
  refine ⟨by decide, by decide, by decide⟩

/-- Claim C8 (amended): for duration mode `D ∈ {2, 3}` (group size 2
resp. 4) and an `int16` input with at least one full group, every
output sample of `time_stretch` is the *floor* of the integer mean of
its group of consecutive input samples (numpy `//` floors), so a group
summing to a negative value not divisible by the group size rounds
*down*, away from zero — not toward zero as the claim states. -/
theorem claim_C8_amended (x : List Int) (r D : Nat)
    (hx : ∀ v ∈ x, -32768 ≤ v ∧ v ≤ 32767)
    (hD : D = 2 ∨ D = 3)
    (hlen : (if D = 2 then 2 else 4) ≤ x.length) :
    (time_stretch x r D).length = x.length / (if D = 2 then 2 else 4) ∧
    ∀ j < x.length / (if D = 2 then 2 else 4),
      (time_stretch x r D).getD j 0 =
        Int.fdiv (groupSum x (if D = 2 then 2 else 4) j) (if D = 2 then 2 else 4) := by
  rcases hD with hD | hD <;> subst hD <;> norm_num at hlen ⊢
  · rw [time_stretch_two x r hlen]
    constructor
    · simp
    · intro j hj
      rw [List.getElem?_map, List.getElem?_range hj]
      show toInt16 (Int.fdiv (groupSum x 2 j) 2) = Int.fdiv (groupSum x 2 j) 2
      have hb0 := list_getD_bounds x hx (j * 2)
      have hb1 := list_getD_bounds x hx (j * 2 + 1)
      have hg := groupSum_two x j
      refine toInt16_eq_self _ ?_ ?_ <;>
        rw [Int.fdiv_eq_ediv _ (by norm_num), hg] <;> omega
  · rw [time_stretch_four x r hlen]
    constructor
    · simp
    · intro j hj
      rw [List.getElem?_map, List.getElem?_range hj]
      show toInt16 (Int.fdiv (groupSum x 4 j) 4) = Int.fdiv (groupSum x 4 j) 4
      have hb0 := list_getD_bounds x hx (j * 4)
      have hb1 := list_getD_bounds x hx (j * 4 + 1)
      have hb2 := list_getD_bounds x hx (j * 4 + 2)
      have hb3 := list_getD_bounds x hx (j * 4 + 3)
      have hg := groupSum_four x j
      refine toInt16_eq_self _ ?_ ?_ <;>
        rw [Int.fdiv_eq_ediv _ (by norm_num), hg] <;> omega

/-- Claim C8 amended, witness at `x = [-1, 0]`, `D = 2`, `j = 0`. -/
theorem claim_C8_amended_witness :
    (time_stretch [-1, 0] 0 2).getD 0 0 = Int.fdiv (groupSum [-1, 0] 2 0) 2 := by
  have h := (claim_C8_amended [-1, 0] 0 2 (by decide) (Or.inl rfl) (by decide)).2 0 (by decide)
  simpa using h

/-! ## Chip helper lemmas

Synth forwarding (`SSI263.forward`) and `_speak_phoneme` touch disjoint
parts of the chip state; these projection lemmas let the later proofs
step through `write` without case-splitting on the synth binding. -/

@[simp] lemma forward_base_port (s : SSI263) (f : SSI263Synth → SSI263Synth) :
    (s.forward f).base_port = s.base_port := by
  unfold SSI263.forward
  cases s.synth <;> rfl

@[simp] lemma forward_clock (s : SSI263) (f : SSI263Synth → SSI263Synth) :
    (s.forward f).clock = s.clock := by
  unfold SSI263.forward
  cases s.synth <;> rfl

@[simp] lemma forward_speaking (s : SSI263) (f : SSI263Synth → SSI263Synth) :
    (s.forward f).speaking = s.speaking := by
  unfold SSI263.forward
  cases s.synth <;> rfl

@[simp] lemma forward_irq_enabled (s : SSI263) (f : SSI263Synth → SSI263Synth) :
    (s.forward f).irq_enabled = s.irq_enabled := by
  unfold SSI263.forward
  cases s.synth <;> rfl

@[simp] lemma forward_pending (s : SSI263) (f : SSI263Synth → SSI263Synth) :
    (s.forward f).pending_irq_cycle = s.pending_irq_cycle := by
  unfold SSI263.forward
  cases s.synth <;> rfl

@[simp] lemma forward_callback_set (s : SSI263) (f : SSI263Synth → SSI263Synth) :
    (s.forward f).callback_set = s.callback_set := by
  unfold SSI263.forward
  cases s.synth <;> rfl

@[simp] lemma forward_ctrl_art_amp (s : SSI263) (f : SSI263Synth → SSI263Synth) :
    (s.forward f).ctrl_art_amp = s.ctrl_art_amp := by
  unfold SSI263.forward
  cases s.synth <;> rfl

@[simp] lemma forward_duration_phoneme (s : SSI263) (f : SSI263Synth → SSI263Synth) :
    (s.forward f).duration_phoneme = s.duration_phoneme := by
  unfold SSI263.forward
  cases s.synth <;> rfl

@[simp] lemma forward_rate_inflection (s : SSI263) (f : SSI263Synth → SSI263Synth) :
    (s.forward f).rate_inflection = s.rate_inflection := by
  unfold SSI263.forward
  cases s.synth <;> rfl

@[simp] lemma forward_current_cycle (s : SSI263) (f : SSI263Synth → SSI263Synth) :
    (s.forward f).current_cycle = s.current_cycle := by
  unfold SSI263.forward
  cases s.synth <;> rfl

@[simp] lemma forward_irq_log (s : SSI263) (f : SSI263Synth → SSI263Synth) :
    (s.forward f).irq_log = s.irq_log := by
  unfold SSI263.forward
  cases s.synth <;> rfl

@[simp] lemma speak_speaking (s : SSI263) (p : Nat) :
    (s.speak_phoneme p).speaking = true := by
  unfold SSI263.speak_phoneme
  dsimp only
  split <;> rfl

@[simp] lemma speak_base_port (s : SSI263) (p : Nat) :
    (s.speak_phoneme p).base_port = s.base_port := by
  unfold SSI263.speak_phoneme
  dsimp only
  split <;> rfl

@[simp] lemma speak_callback_set (s : SSI263) (p : Nat) :
    (s.speak_phoneme p).callback_set = s.callback_set := by
  unfold SSI263.speak_phoneme
  dsimp only
  split <;> rfl

@[simp] lemma speak_irq_enabled (s : SSI263) (p : Nat) :
    (s.speak_phoneme p).irq_enabled = s.irq_enabled := by
  unfold SSI263.speak_phoneme
  dsimp only
  split <;> rfl

@[simp] lemma speak_ctrl_art_amp (s : SSI263) (p : Nat) :
    (s.speak_phoneme p).ctrl_art_amp = s.ctrl_art_amp := by
  unfold SSI263.speak_phoneme
  dsimp only
  split <;> rfl

@[simp] lemma speak_irq_log (s : SSI263) (p : Nat) :
    (s.speak_phoneme p).irq_log = s.irq_log := by
  unfold SSI263.speak_phoneme
  dsimp only
  split <;> rfl

/-- `_speak_phoneme` schedules the pending IRQ exactly when IRQ is
enabled and a callback is bound. -/
lemma speak_pending (s : SSI263) (p : Nat) :
    (s.speak_phoneme p).pending_irq_cycle =
      if s.irq_enabled = true ∧ s.callback_set = true
      then some (s.current_cycle + s.calc_phoneme_duration_cycles)
      else s.pending_irq_cycle := by
  unfold SSI263.speak_phoneme
  dsimp only
  split <;> rfl

/-- A fired `check_pending_irq` with a bound callback clears the
pending cycle, stops speaking and asserts INT1. -/
lemma check_fired (s : SSI263) (c pc : Nat) (hp : s.pending_irq_cycle = some pc)
    (hle : pc ≤ c) (hcb : s.callback_set = true) :
    (s.check_pending_irq c).irq_log = 1 :: s.irq_log ∧
    (s.check_pending_irq c).speaking = false ∧
    (s.check_pending_irq c).pending_irq_cycle = none := by
  unfold SSI263.check_pending_irq
  rw [hp]
  simp [hle, hcb]

/-! ## Claim C5 -/

/-- Claim C5: the scheduled phoneme duration follows the AppleWin
formula with flooring integer division — for decoded rate `R`, duration
mode `D` and clock `f`,
`duration_cycles = ((16 - R) * 4096 / 1023) * (4 - D) * f / 1000` —
and at `f = 12_288_000`, `R = 0`, `D = 3` (scenario registers
`DURPHON = 0xC5`, `RATEINF = 0x00`) the duration is 64 ms and
786432 cycles. -/
theorem claim_C5 :
    (∀ (R D f : Nat) (s : SSI263), R ≤ 15 → D ≤ 3 → 0 < f →
      (s.rate_inflection >>> 4) &&& 0x0F = R →
      (s.duration_phoneme >>> 6) &&& 0x03 = D →
      s.clock = f →
      s.calc_phoneme_duration_cycles = (16 - R) * 4096 / 1023 * (4 - D) * f / 1000) ∧
    (let s5 := SSI263.runOps (SSI263.init 0xC0 12288000)
        [.regWrite 0xC0 0xC5, .regWrite 0xC2 0x00]
     s5.calc_phoneme_duration_ms = 64 ∧ s5.calc_phoneme_duration_cycles = 786432) := by
  constructor
  · intro R D f s _ _ _ h1 h2 h3
    unfold SSI263.calc_phoneme_duration_cycles SSI263.calc_phoneme_duration_ms
    rw [h1, h2, h3]
  · exact ⟨by decide, by decide⟩

/-- Claim C5, witness at `R = 5`, `D = 2`, `f = 1000`. -/
theorem claim_C5_witness :
    ({ SSI263.init 0xC0 1000 with rate_inflection := 0x50, duration_phoneme := 0x80 } : SSI263).calc_phoneme_duration_cycles
      = (16 - 5) * 4096 / 1023 * (4 - 2) * 1000 / 1000 :=
  claim_C5.1 5 2 1000 _ (by decide) (by decide) (by decide) (by decide) (by decide) rfl

/-! ## Claim C1 -/

/-- Claim C1, counterexample: wire the IRQ callback (as `BNS.__init__`
does), wake the chip, start a phoneme with IRQ enabled, then write
`0x80` to CTRLAMP (CTL 0→1, standby).  `speaking` becomes false, but
`pending_irq_cycle` is *not* unset, and a later `check_pending_irq`
still asserts the IRQ line for the phoneme that was in flight. -/
theorem claim_C1_counterexample :
    (let s4 := SSI263.runOps (SSI263.init 0xC0 12288000)
        [.setIrqCallback, .regWrite 0xC3 0x00, .regWrite 0xC0 0x45, .regWrite 0xC3 0x80]
     s4.speaking = false ∧ s4.pending_irq_cycle = some 2359296 ∧
       (s4.check_pending_irq 2359296).irq_log = [1]) := by
  exact ⟨by decide, by decide, by decide⟩

/-- Claim C1 (amended): a CTRLAMP write of `0x80` from a CTL=0 state
clears `speaking` but leaves `pending_irq_cycle` exactly as it was; if
a phoneme was in flight with a scheduled IRQ and a bound callback, a
later `check_pending_irq` at or past the scheduled cycle still asserts
the IRQ line. -/
theorem claim_C1_amended (s : SSI263) (port : Nat)
    (hreg : (port : Int) - (s.base_port : Int) = 3)
    (hctl : s.ctrl_art_amp &&& 0x80 = 0) :
    (s.write port 0x80).speaking = false ∧
    (s.write port 0x80).pending_irq_cycle = s.pending_irq_cycle ∧
    (∀ c pc, s.pending_irq_cycle = some pc → pc ≤ c → s.callback_set = true →
      ((s.write port 0x80).check_pending_irq c).irq_log = 1 :: s.irq_log) := by
  have hfinal : s.write port 0x80 =
      { ({ s with ctrl_art_amp := 0x80 } : SSI263).forward
          (fun sy => sy.write_ctrlamp 0x80) with speaking := false } := by
    simp only [SSI263.write]
    rw [hreg]
    simp only [hctl]
    norm_num
  rw [hfinal]
  refine ⟨rfl, by simp, ?_⟩
  intro c pc hp hle hcb
  exact (check_fired _ c pc (by simp [hp]) hle (by simp [hcb])).1.trans (by simp)

/-- Claim C1 amended, witness: the state of the counterexample trace
before the standby write; `check_pending_irq` at the scheduled cycle
asserts INT1 after the standby write. -/
theorem claim_C1_amended_witness :
    (let spre := SSI263.runOps (SSI263.init 0xC0 12288000)
        [.setIrqCallback, .regWrite 0xC3 0x00, .regWrite 0xC0 0x45]
     ((spre.write 0xC3 0x80).check_pending_irq 2359296).irq_log = 1 :: spre.irq_log) :=
  (claim_C1_amended _ 0xC3 (by decide) (by decide)).2.2
    2359296 2359296 (by decide) (by decide) (by decide)

/-! ## Claim C3 -/

/-- Claim C3, counterexample: the iff `pending_irq_cycle set ↔ speaking
∧ irq_enabled` fails on three traces of allowed operations:
(a) with no IRQ callback registered, a spoken phoneme with IRQ enabled
sets no pending cycle; (b) with the callback registered (as
`BNS.__init__` does), re-entering standby clears `speaking` but leaves
the pending cycle set; (c) a mode-0 DURPHON write disables IRQ but
leaves a stale pending cycle set. -/
theorem claim_C3_counterexample :
    (let sa := SSI263.runOps (SSI263.init 0xC0 12288000)
        [.regWrite 0xC3 0x00, .regWrite 0xC0 0x45]
     sa.speaking = true ∧ sa.irq_enabled = true ∧ sa.pending_irq_cycle = none) ∧
    (let sb := SSI263.runOps ((SSI263.init 0xC0 12288000).set_irq_callback)
        [.regWrite 0xC3 0x00, .regWrite 0xC0 0x45, .regWrite 0xC3 0x80]
     sb.speaking = false ∧ sb.pending_irq_cycle.isSome = true) ∧
    (let sc := SSI263.runOps ((SSI263.init 0xC0 12288000).set_irq_callback)
        [.regWrite 0xC3 0x00, .regWrite 0xC0 0x45, .regWrite 0xC0 0x05]
     sc.irq_enabled = false ∧ sc.pending_irq_cycle.isSome = true) := by
  exact ⟨⟨by decide, by decide, by decide⟩, ⟨by decide, by decide⟩,
    ⟨by decide, by decide⟩⟩

/-- Condition on one chip operation under which the pending-IRQ iff is
an invariant: DURPHON writes use a non-zero duration mode (IRQ stays
enabled) and CTRLAMP writes never set the CTL bit (no standby
request). -/
def SSIOp.ok (base : Nat) : SSIOp → Bool
  | .regWrite port value =>
    if ((port : Int) - (base : Int)) = 0 then value &&& 0xC0 != 0
    else if ((port : Int) - (base : Int)) = 3 then value &&& 0x80 == 0
    else true
  | _ => true

/-- Inductive invariant for claim C3: the base port is fixed, the IRQ
callback stays bound, pending is set exactly while speaking with IRQ
enabled, and in standby the chip is not speaking. -/
def goodInv (base : Nat) (s : SSI263) : Prop :=
  s.base_port = base ∧ s.callback_set = true ∧
  s.pending_irq_cycle.isSome = (s.speaking && s.irq_enabled) ∧
  (s.ctrl_art_amp &&& 0x80 ≠ 0 → s.speaking = false)

/-- One allowed operation preserves the invariant. -/
lemma inv_step (base : Nat) (s : SSI263) (op : SSIOp)
    (hs : goodInv base s) (hop : SSIOp.ok base op = true) :
    goodInv base (s.step op) := by
  obtain ⟨hbp, hcb, hpend, hctl⟩ := hs
  unfold goodInv
  cases op with
  | regRead port => exact ⟨hbp, hcb, hpend, hctl⟩
  | setCycleCount n => exact ⟨hbp, hcb, hpend, hctl⟩
  | setIrqCallback => exact ⟨hbp, rfl, hpend, hctl⟩
  | setSynth sy => exact ⟨hbp, hcb, hpend, hctl⟩
  | checkIrq n =>
    show _ ∧ _ ∧ _ ∧ _
    cases hp : s.pending_irq_cycle with
    | none =>
      simp only [SSI263.step, SSI263.check_pending_irq, hp]
      exact ⟨hbp, hcb, by rw [← hp]; exact hpend, hctl⟩
    | some pc =>
      simp only [SSI263.step, SSI263.check_pending_irq, hp]
      by_cases hle : pc ≤ n
      · rw [if_pos hle, if_pos hcb]
        exact ⟨hbp, hcb, by simp, fun _ => rfl⟩
      · rw [if_neg hle]
        exact ⟨hbp, hcb, hpend, hctl⟩
  | regWrite port value =>
    show goodInv base (s.write port value)
    simp only [SSIOp.ok] at hop
    unfold goodInv
    simp only [SSI263.write, hbp]
    by_cases h0 : ((port : Int) - (base : Int)) = 0
    · rw [if_pos h0]
      rw [if_pos h0] at hop
      have hmode : value &&& 0xC0 ≠ 0 := by simpa using hop
      have hirq : decide (value &&& 0xC0 ≠ 0) = true := decide_eq_true hmode
      simp only [forward_ctrl_art_amp]
      by_cases hc : s.ctrl_art_amp &&& 0x80 = 0
      · rw [if_pos (by simpa using hc)]
        refine ⟨by simp [hbp], by simp [hcb], ?_, ?_⟩
        · simp [speak_pending, hirq, hcb]
        · intro hcc
          rw [speak_ctrl_art_amp] at hcc
          simp [hc] at hcc
      · rw [if_neg (by simpa using hc)]
        have hsp : s.speaking = false := hctl hc
        refine ⟨by simp [hbp], by simp [hcb], ?_, ?_⟩
        · simp [hsp, hpend]
        · intro _
          simp [hsp]
    · rw [if_neg h0]
      rw [if_neg h0] at hop
      by_cases h1 : ((port : Int) - (base : Int)) = 1
      · rw [if_pos h1]
        exact ⟨by simp [hbp], by simp [hcb], by simp [hpend], fun h => by
          simp at h
          simp [hctl h]⟩
      · rw [if_neg h1]
        by_cases h2 : ((port : Int) - (base : Int)) = 2
        · rw [if_pos h2]
          exact ⟨by simp [hbp], by simp [hcb], by simp [hpend], fun h => by
            simp at h
            simp [hctl h]⟩
        · rw [if_neg h2]
          by_cases h3 : ((port : Int) - (base : Int)) = 3
          · rw [if_pos h3]
            rw [if_pos h3] at hop
            have hv : value &&& 0x80 = 0 := by simpa using hop
            by_cases hc : s.ctrl_art_amp &&& 0x80 = 0
            · rw [if_neg (fun hcon => hcon.1 hc), if_neg (fun hcon => hcon.2 hv)]
              refine ⟨by simp [hbp], by simp [hcb], by simp [hpend], ?_⟩
              intro h
              simp at h
              exact absurd hv h
            · rw [if_pos ⟨hc, hv⟩]
              refine ⟨by simp [hbp], by simp [hcb], ?_, ?_⟩
              · cases hi : s.irq_enabled with
                | true => simp [speak_pending, hi, hcb]
                | false =>
                  have hnone : s.pending_irq_cycle = none := by
                    cases hq : s.pending_irq_cycle with
                    | none => rfl
                    | some pc =>
                      rw [hq] at hpend
                      simp [hi] at hpend
                  simp [speak_pending, hi, hcb, hnone]
              · intro h
                simp at h
                exact absurd hv h
          · rw [if_neg h3]
            by_cases h4 : ((port : Int) - (base : Int)) = 4
            · rw [if_pos h4]
              exact ⟨by simp [hbp], by simp [hcb], by simp [hpend], fun h => by
                simp at h
                simp [hctl h]⟩
            · rw [if_neg h4]
              exact ⟨hbp, hcb, hpend, hctl⟩

/-- The invariant holds along any allowed operation sequence. -/
lemma inv_runOps (base : Nat) (s : SSI263) (ops : List SSIOp)
    (hs : goodInv base s) (hops : ops.all (SSIOp.ok base) = true) :
    goodInv base (s.runOps ops) := by
  induction ops generalizing s with
  | nil => exact hs
  | cons op rest ih =>
    simp only [List.all_cons, Bool.and_eq_true] at hops
    exact ih (s.step op) (inv_step base s op hs hops.1) hops.2

/-- Claim C3 (amended): with an IRQ callback registered at wiring time
(as `BNS.__init__` does), and along any sequence of register
reads/writes, `set_cycle_count` and `check_pending_irq` calls in which
every DURPHON write uses a non-zero duration mode and no CTRLAMP write
sets the CTL bit, `pending_irq_cycle` is set iff
`speaking ∧ irq_enabled`.  (Without these conditions the iff fails; see
the counterexample.) -/
theorem claim_C3_amended (base clock : Nat) (ops : List SSIOp)
    (hops : ops.all (SSIOp.ok base) = true) :
    (let final := SSI263.runOps ((SSI263.init base clock).set_irq_callback) ops
     final.pending_irq_cycle.isSome = (final.speaking && final.irq_enabled)) := by
  have hinit : goodInv base ((SSI263.init base clock).set_irq_callback) :=
    ⟨rfl, rfl, rfl, fun _ => rfl⟩
  exact (inv_runOps base _ ops hinit hops).2.2.1

/-- Claim C3 amended, witness on a concrete allowed trace: wake, speak
with IRQ enabled, fire the IRQ, advance the cycle count, speak again. -/
theorem claim_C3_amended_witness :
    (let final := SSI263.runOps ((SSI263.init 0xC0 12288000).set_irq_callback)
        [.regWrite 0xC3 0x00, .regWrite 0xC0 0x45, .checkIrq 2359296,
         .setCycleCount 2359296, .regWrite 0xC0 0x7F, .regRead 0xC4]
     final.pending_irq_cycle.isSome = (final.speaking && final.irq_enabled)) :=
  claim_C3_amended 0xC0 12288000 _ (by decide)

end QNS
